import Mathlib

/-!
Shallow embedding of `custom_components/xiaomi_viomi/config_flow.py`:
the Viomi vacuum config-flow handler (device hub, validation procedure,
user step) together with the external collaborators the code calls
(the platform's MAC canonicalization utility and the form-schema boundary),
and theorems settling the specification's claims about it.
-/

/-- Configuration keys, after `homeassistant.const` / `xiaomi_miio` constants. -/
def CONF_HOST : String := "host"

/-- The token key. -/
def CONF_TOKEN : String := "token"

/-- The name key. -/
def CONF_NAME : String := "name"

/-- The model key. -/
def CONF_MODEL : String := "model"

/-- The mac key. -/
def CONF_MAC : String := "mac"

/-- The unique-id key. -/
def CONF_UNIQUE_ID : String := "unique_id"

/-- Number of occurrences of character `c` in string `s` (Python `str.count`). -/
def countChar (s : String) (c : Char) : Nat :=
  (s.toList.filter (fun x => x = c)).length

/-- ASCII lowercase of one character (Python `str.lower` restricted to the
ASCII range, which covers MAC-address characters). -/
def asciiLower (c : Char) : Char :=
  if 'A' ≤ c ∧ c ≤ 'Z' then Char.ofNat (c.toNat + 32) else c

/-- Characterwise ASCII lowercase of a string (Python `str.lower`). -/
def lowerString (s : String) : String :=
  String.mk (s.toList.map asciiLower)

/-- Remove every occurrence of the character `c` from `s`
(Python `str.replace(sep, "")` for a one-character separator `sep`). -/
def removeChar (s : String) (c : Char) : String :=
  String.mk (s.toList.filter (fun x => x ≠ c))

/-- Split a character list into strings of two characters each
(Python `to_test[i:i+2] for i in range(0, 12, 2)` on a 12-character string). -/
def pairChunks : List Char → List String
  | a :: b :: rest => String.mk [a, b] :: pairChunks rest
  | [c] => [String.mk [c]]
  | [] => []

/-- Modelled from the spec: the platform's MAC-address canonicalization utility
(`homeassistant.helpers.device_registry.format_mac`, imported by the code but not
under `src/`). It normalizes a MAC address "to a canonical colon-separated
lowercase form": a `xx:xx:xx:xx:xx:xx` string is lowercased; dash- or
dot-separated forms are stripped to 12 raw digits and rejoined lowercased with
colons; anything unrecognized is returned unchanged. -/
def format_mac (mac : String) : String :=
  if mac.length = 17 ∧ countChar mac ':' = 5 then
    lowerString mac
  else
    let to_test :=
      if mac.length = 17 ∧ countChar mac '-' = 5 then
        removeChar mac '-'
      else if mac.length = 14 ∧ countChar mac '.' = 2 then
        removeChar mac '.'
      else
        mac
    if to_test.length = 12 then
      String.intercalate ":" (pairChunks (lowerString to_test).toList)
    else
      mac

/-- The identity information the device reports (`miio.device.DeviceInfo`):
the fields the flow reads are the model string and the MAC address. -/
structure DeviceInfo where
  model : String
  mac_address : String
deriving DecidableEq

/-- Behavior of the physical device during the identity query made by
`ViomiDeviceHub.async_device_is_connectable`: either it responds with its
identity, or the client raises a `DeviceException`, whose `__cause__` may or
may not be a `construct.core.ChecksumError` (integrity failure). -/
inductive DeviceBehavior where
  | responds (info : DeviceInfo)
  | deviceError (checksumCause : Bool)
deriving DecidableEq

/-- Outcome of `ViomiDeviceHub.async_device_is_connectable`: returns `True`
with the stored identity, returns `False`, or raises `ConfigEntryAuthFailed`. -/
inductive HubResult where
  | connected (info : DeviceInfo)
  | notConnectable
  | authFailed
deriving DecidableEq

/-- Embedding of `ViomiDeviceHub.async_device_is_connectable` (config_flow.py
lines 58-80): on a normal response it stores the device info and returns
`True`; on a
`DeviceException` whose cause is a `ChecksumError` it raises
`ConfigEntryAuthFailed`; on any other `DeviceException` it logs and returns
`False`. -/
def async_device_is_connectable (beh : DeviceBehavior) : HubResult :=
  match beh with
  | .responds info => .connected info
  | .deviceError true => .authFailed
  | .deviceError false => .notConnectable

/-- The user-submitted mapping given to `validate_input`: `host` and `token`
are required by the form schema; `name` is optional — `none` models the
`CONF_NAME` key being absent from the dict, `some s` models it present with
value `s`. -/
structure UserInput where
  host : String
  token : String
  name : Option String
deriving DecidableEq

/-- The exceptions that can escape `validate_input` into the flow handler:
`CannotConnect` and `InvalidAuth` (defined at the bottom of config_flow.py),
`ConfigEntryAuthFailed` (raised by the hub), or any other exception (for
example the `vol.Invalid` raised by the schema check on line 89). -/
inductive FlowError where
  | cannotConnect
  | invalidAuth
  | configEntryAuthFailed
  | other
deriving DecidableEq

/-- The normalized device record returned by `validate_input`
(config_flow.py lines 93-100). -/
structure DeviceRecord where
  host : String
  token : String
  model : String
  name : String
  unique_id : String
  mac : String
deriving DecidableEq

/-- Result of `validate_input`: either the normalized device record, or the
exception that escapes it. -/
inductive ValidateResult where
  | ok (record : DeviceRecord)
  | error (e : FlowError)
deriving DecidableEq

/-- Embedding of `validate_input` (config_flow.py lines 83-100): constructs a
hub and calls
`async_device_is_connectable` first (line 86) — `ConfigEntryAuthFailed`
propagates, a `False` return raises `InvalidAuth` (line 87); only then is the
input checked against the extended `DEVICE_CONFIG` schema (line 89), whose
token length-32 requirement raises a `vol.Invalid` (an "other" exception) on
failure; the name falls back to the reported model only when the `CONF_NAME`
key is absent (line 91); the record's unique id and mac are both the
canonicalized reported MAC address (lines 98-99). -/
def validate_input (beh : DeviceBehavior) (data : UserInput) :
    ValidateResult :=
  match async_device_is_connectable beh with
  | .authFailed => .error .configEntryAuthFailed
  | .notConnectable => .error .invalidAuth
  | .connected info =>
    if data.token.length = 32 then
      .ok
        { host := data.host
          token := data.token
          model := info.model
          name := data.name.getD info.model
          unique_id := format_mac info.mac_address
          mac := format_mac info.mac_address }
    else
      .error .other

/-- Instrumentation: `validate_input` constructs the device client and performs
the identity query exactly once, unconditionally, as its first action
(line 86) — in particular before the schema check on line 89. -/
def validate_input_device_calls (_beh : DeviceBehavior) (_data : UserInput) : Nat :=
  1

/-- A pre-existing persisted config entry: its title, its data mapping
(string keys to string values; absent keys map to `none`), and its entry id. -/
structure ExistingEntry where
  title : String
  data : String → Option String
  entry_id : String

/-- The merged data written to a pre-existing entry on the duplicate path
(config_flow.py lines 132-136): a copy of the existing entry's data with
exactly the host, token, name and model keys overwritten; the name falls back
to the existing entry's title when the new name is the empty string
(Python `info[CONF_NAME] or existing_entry.title`). -/
def merged_entry_data (info : DeviceRecord) (entry : ExistingEntry) :
    String → Option String :=
  fun k =>
    if k = CONF_HOST then some info.host
    else if k = CONF_TOKEN then some info.token
    else if k = CONF_NAME then
      some (if info.name = "" then entry.title else info.name)
    else if k = CONF_MODEL then some info.model
    else entry.data k

/-- Result of `XiaomiViomiFlowHandler.async_step_user`:
re-render the form (`errorBase` is the `errors["base"]` annotation, `none`
when unannotated; `loggedUnexpected` records the `_LOGGER.exception` call of
line 123), create a new entry (`key` is the unique id set through
`async_set_unique_id`, then title and data), or abort after updating the
matching entry (`updatedData` is the data passed to `async_update_entry`,
`reloadedEntryId` the entry id passed to `async_reload`). -/
inductive StepOutcome where
  | showForm (errorBase : Option String) (loggedUnexpected : Bool)
  | created (key : String) (title : String) (data : DeviceRecord)
  | aborted (reason : String) (updatedData : String → Option String)
      (reloadedEntryId : String)

/-- Embedding of `XiaomiViomiFlowHandler.async_step_user` (config_flow.py
lines 108-146).
`entries` models the platform's entry store as a lookup by unique id, which is
what `async_set_unique_id(unique_id, raise_on_progress=False)` queries. With
no user input, the empty form is shown. Otherwise `validate_input` runs:
`CannotConnect` maps to the `cannot_connect` error, `InvalidAuth` and
`ConfigEntryAuthFailed` to `invalid_auth`, any other exception is logged and
maps to `unknown`, each re-rendering the form. On success the unique id is
`info[CONF_MAC]`; a matching existing entry is updated with the merged data,
reloaded, and the flow aborts with reason `already_configured`; otherwise an
entry is created with the record as data and its name as title. -/
def async_step_user (beh : DeviceBehavior)
    (entries : String → Option ExistingEntry)
    (user_input : Option UserInput) : StepOutcome :=
  match user_input with
  | none => .showForm none false
  | some data =>
    match validate_input beh data with
    | .error .cannotConnect => .showForm (some "cannot_connect") false
    | .error .invalidAuth => .showForm (some "invalid_auth") false
    | .error .configEntryAuthFailed => .showForm (some "invalid_auth") false
    | .error .other => .showForm (some "unknown") true
    | .ok info =>
      match entries info.mac with
      | some entry =>
        .aborted "already_configured" (merged_entry_data info entry)
          entry.entry_id
      | none => .created info.mac info.name info

/-- Acceptance condition of the `DEVICE_CONFIG` form schema
(config_flow.py lines 30-36) on a typed input: host and token are strings by
construction, the token must be exactly 32 characters, the name is optional. -/
def DEVICE_CONFIG_accepts (data : UserInput) : Bool :=
  data.token.length == 32

/-- Outcome of submitting the form to the platform: the submission is either
rejected by the form schema before the flow step runs, or the step runs and
produces its outcome. -/
inductive SubmitOutcome where
  | schemaRejected
  | stepped (outcome : StepOutcome)

/-- Modelled from the spec: the host platform (not under `src/`) validates a
form submission against the form's `data_schema` — the `DEVICE_CONFIG` schema
this flow passes to `async_show_form`, whose token field requires exactly 32
characters — before the flow step ever receives the input; a submission the
schema rejects never reaches `async_step_user`. -/
def submit_user (beh : DeviceBehavior) (entries : String → Option ExistingEntry)
    (data : UserInput) : SubmitOutcome :=
  if DEVICE_CONFIG_accepts data then
    .stepped (async_step_user beh entries (some data))
  else
    .schemaRejected

/-- Number of device-client connection attempts made while handling one
submission: `validate_input`'s single unconditional device call when the step
runs, and none when the schema rejects the submission. -/
def submit_device_calls (beh : DeviceBehavior)
    (_entries : String → Option ExistingEntry) (data : UserInput) : Nat :=
  if DEVICE_CONFIG_accepts data then
    validate_input_device_calls beh data
  else
    0

/-- A concrete device identity used in witnesses: the model and MAC of the
specification's worked scenario. -/
def sampleDevice : DeviceInfo :=
  { model := "viomi.vacuum.v8", mac_address := "AA:BB:CC:DD:EE:FF" }

/-- A concrete submitted input with a 32-character token and no name key. -/
def sampleInput : UserInput :=
  { host := "10.0.0.5", token := "aabbccddeeff00112233445566778899", name := none }

/-- The record `validate_input` produces for `sampleDevice` and `sampleInput`. -/
def sampleRecord : DeviceRecord :=
  { host := "10.0.0.5", token := "aabbccddeeff00112233445566778899",
    model := "viomi.vacuum.v8", name := "viomi.vacuum.v8",
    unique_id := "aa:bb:cc:dd:ee:ff", mac := "aa:bb:cc:dd:ee:ff" }

/-- An empty entry store. -/
def noEntries : String → Option ExistingEntry := fun _ => none

/-- A concrete pre-existing entry carrying one extra data key. -/
def sampleEntry : ExistingEntry :=
  { title := "Old vacuum",
    data := fun k => if k = "scan_interval" then some "30" else none,
    entry_id := "entry-1" }

/-- An entry store holding `sampleEntry` under the sample device's
normalized MAC. -/
def sampleEntries : String → Option ExistingEntry :=
  fun k => if k = "aa:bb:cc:dd:ee:ff" then some sampleEntry else none

/-- C1, counterexample: on a generic device exception without a checksum cause
(the hub's `False` return), the flow re-renders the form annotated with
`invalid_auth`, which is not the error code `cannot_connect` the claim
states. -/
theorem c1_counterexample :
    async_step_user (.deviceError false) (fun _ => none)
      (some { host := "10.0.0.5", token := "aabbccddeeff00112233445566778899",
              name := none }) =
      .showForm (some "invalid_auth") false ∧
    ("invalid_auth" : String) ≠ "cannot_connect" :=
  ⟨rfl, by decide⟩

/-- C1, amended: for every input where the device client raises a generic
device exception whose cause is not an integrity/checksum failure, the hub's
connection attempt returns false, the validation procedure raises the
invalid-auth condition (config_flow.py line 87 raises `InvalidAuth`, not
`CannotConnect`), and the flow re-renders the input form annotated with the
error code `invalid_auth`. -/
theorem c1_amended (entries : String → Option ExistingEntry) (data : UserInput) :
    async_device_is_connectable (.deviceError false) = .notConnectable ∧
    validate_input (.deviceError false) data = .error .invalidAuth ∧
    async_step_user (.deviceError false) entries (some data) =
      .showForm (some "invalid_auth") false :=
  ⟨rfl, rfl, rfl⟩

/-- C2, counterexample: when the name key is present but holds the empty
string, the returned record's name is the empty string, not the device's
reported model as the claim states for an empty user-supplied name. -/
theorem c2_counterexample :
    validate_input
        (.responds { model := "viomi.vacuum.v8",
                     mac_address := "AA:BB:CC:DD:EE:FF" })
        { host := "10.0.0.5", token := "aabbccddeeff00112233445566778899",
          name := some "" } =
      .ok { host := "10.0.0.5", token := "aabbccddeeff00112233445566778899",
            model := "viomi.vacuum.v8", name := "",
            unique_id := "aa:bb:cc:dd:ee:ff", mac := "aa:bb:cc:dd:ee:ff" } ∧
    ("" : String) ≠ "viomi.vacuum.v8" :=
  ⟨by decide, by decide⟩

/-- C2, amended: for every valid input (host, 32-character token) where the
device responds normally, validation returns a record whose `unique_id` (and
`mac`) equal the canonicalized form of the device's reported MAC address, and
whose `name` equals the user-supplied name whenever the name key is present in
the input — even when it is the empty string — and equals the device's
reported model only when no name key was supplied. -/
theorem c2_amended (di : DeviceInfo) (data : UserInput)
    (ht : data.token.length = 32) :
    validate_input (.responds di) data =
      .ok { host := data.host, token := data.token, model := di.model,
            name := data.name.getD di.model,
            unique_id := format_mac di.mac_address,
            mac := format_mac di.mac_address } := by
  simp [validate_input, async_device_is_connectable, ht]

/-- C2, witness: the amended theorem evaluated at a concrete device and a
concrete input carrying a non-empty name. -/
theorem c2_amended_witness :
    (("aabbccddeeff00112233445566778899" : String).length = 32) ∧
    validate_input
        (.responds { model := "viomi.vacuum.v8",
                     mac_address := "AA:BB:CC:DD:EE:FF" })
        { host := "10.0.0.5", token := "aabbccddeeff00112233445566778899",
          name := some "Living room vacuum" } =
      .ok { host := "10.0.0.5", token := "aabbccddeeff00112233445566778899",
            model := "viomi.vacuum.v8",
            name := (some "Living room vacuum").getD "viomi.vacuum.v8",
            unique_id := format_mac "AA:BB:CC:DD:EE:FF",
            mac := format_mac "AA:BB:CC:DD:EE:FF" } :=
  ⟨by decide, c2_amended _ _ (by decide)⟩

/-- C3: in every successful validation the record's unique identifier is the
normalized MAC address of the device and equals the record's MAC field, and
the flow handler uses that same value both to look up a pre-existing entry
and as the key set for a newly created entry. -/
theorem c3_unique_id_invariant (di : DeviceInfo) (data : UserInput)
    (entries : String → Option ExistingEntry) (info : DeviceRecord)
    (hv : validate_input (.responds di) data = .ok info) :
    info.unique_id = format_mac di.mac_address ∧
    info.mac = info.unique_id ∧
    (entries info.unique_id = none →
      async_step_user (.responds di) entries (some data) =
        .created info.unique_id info.name info) ∧
    (∀ entry : ExistingEntry, entries info.unique_id = some entry →
      async_step_user (.responds di) entries (some data) =
        .aborted "already_configured" (merged_entry_data info entry)
          entry.entry_id) := by
  by_cases ht : data.token.length = 32
  · simp [validate_input, async_device_is_connectable, ht] at hv
    subst hv
    refine ⟨rfl, rfl, ?_, ?_⟩
    · intro he
      simp [async_step_user, validate_input, async_device_is_connectable, ht,
        he]
    · intro entry he
      simp [async_step_user, validate_input, async_device_is_connectable, ht,
        he]
  · simp [validate_input, async_device_is_connectable, ht] at hv

/-- C3, witness: the invariant evaluated on the sample device, input and
record with an empty entry store. -/
theorem c3_witness :
    sampleRecord.unique_id = format_mac sampleDevice.mac_address ∧
    sampleRecord.mac = sampleRecord.unique_id ∧
    (noEntries sampleRecord.unique_id = none →
      async_step_user (.responds sampleDevice) noEntries (some sampleInput) =
        .created sampleRecord.unique_id sampleRecord.name sampleRecord) ∧
    (∀ entry : ExistingEntry, noEntries sampleRecord.unique_id = some entry →
      async_step_user (.responds sampleDevice) noEntries (some sampleInput) =
        .aborted "already_configured" (merged_entry_data sampleRecord entry)
          entry.entry_id) :=
  c3_unique_id_invariant sampleDevice sampleInput noEntries sampleRecord
    (by decide)

/-- C4: for every successful validation whose unique identifier matches a
pre-existing entry, the flow updates that entry with the merged data — the new
host, token and model, and the new name falling back to the existing entry's
title when the new name is empty — requests a reload of that entry's id, and
terminates by aborting with reason `already_configured`. -/
theorem c4_duplicate_entry_update (beh : DeviceBehavior) (data : UserInput)
    (entries : String → Option ExistingEntry) (info : DeviceRecord)
    (entry : ExistingEntry)
    (hv : validate_input beh data = .ok info)
    (he : entries info.mac = some entry) :
    async_step_user beh entries (some data) =
      .aborted "already_configured" (merged_entry_data info entry)
        entry.entry_id ∧
    merged_entry_data info entry CONF_HOST = some info.host ∧
    merged_entry_data info entry CONF_TOKEN = some info.token ∧
    merged_entry_data info entry CONF_NAME =
      some (if info.name = "" then entry.title else info.name) ∧
    merged_entry_data info entry CONF_MODEL = some info.model := by
  refine ⟨by simp [async_step_user, hv, he], ?_, ?_, ?_, ?_⟩ <;>
    simp [merged_entry_data, CONF_HOST, CONF_TOKEN, CONF_NAME, CONF_MODEL]

/-- C4, witness: the duplicate path evaluated on the sample device and input
against an entry store holding the sample entry under the normalized MAC. -/
theorem c4_witness :
    async_step_user (.responds sampleDevice) sampleEntries (some sampleInput) =
      .aborted "already_configured"
        (merged_entry_data sampleRecord sampleEntry) sampleEntry.entry_id ∧
    merged_entry_data sampleRecord sampleEntry CONF_HOST =
      some sampleRecord.host ∧
    merged_entry_data sampleRecord sampleEntry CONF_TOKEN =
      some sampleRecord.token ∧
    merged_entry_data sampleRecord sampleEntry CONF_NAME =
      some (if sampleRecord.name = "" then sampleEntry.title
            else sampleRecord.name) ∧
    merged_entry_data sampleRecord sampleEntry CONF_MODEL =
      some sampleRecord.model :=
  c4_duplicate_entry_update (.responds sampleDevice) sampleInput sampleEntries
    sampleRecord sampleEntry (by decide) rfl

/-- C5: for every input where the device exception's underlying cause is an
integrity/checksum failure, the hub's connection attempt signals an
authentication failure (`ConfigEntryAuthFailed`) — an outcome distinct from
the generic `False` return — that propagates through validation, and the flow
re-renders the form with error code `invalid_auth`. -/
theorem c5_checksum_invalid_auth (entries : String → Option ExistingEntry)
    (data : UserInput) :
    async_device_is_connectable (.deviceError true) = .authFailed ∧
    HubResult.authFailed ≠ HubResult.notConnectable ∧
    validate_input (.deviceError true) data = .error .configEntryAuthFailed ∧
    async_step_user (.deviceError true) entries (some data) =
      .showForm (some "invalid_auth") false :=
  ⟨rfl, by decide, rfl, rfl⟩

/-- C6: for every input whose token is shorter or longer than exactly 32
characters, the form schema rejects the submission before the flow step runs,
and no connection attempt to the device is made. -/
theorem c6_short_token_rejected (beh : DeviceBehavior)
    (entries : String → Option ExistingEntry) (data : UserInput)
    (ht : data.token.length ≠ 32) :
    submit_user beh entries data = .schemaRejected ∧
    submit_device_calls beh entries data = 0 := by
  have h : DEVICE_CONFIG_accepts data = false := by
    simp [DEVICE_CONFIG_accepts, ht]
  exact ⟨by simp [submit_user, h], by simp [submit_device_calls, h]⟩

/-- C6, witness: a submission with an 8-character token is schema-rejected
with zero device calls. -/
theorem c6_witness :
    (("tooshort" : String).length ≠ 32) ∧
    (submit_user (.responds sampleDevice) noEntries
        { host := "10.0.0.5", token := "tooshort", name := none } =
      .schemaRejected ∧
    submit_device_calls (.responds sampleDevice) noEntries
        { host := "10.0.0.5", token := "tooshort", name := none } = 0) :=
  ⟨by decide,
   c6_short_token_rejected (.responds sampleDevice) noEntries
     { host := "10.0.0.5", token := "tooshort", name := none } (by decide)⟩

/-- C7: for the input with host `10.0.0.5`, a 32-hex-character token and no
name, with no pre-existing entry, where the device reports model
`viomi.vacuum.v8` and MAC `AA:BB:CC:DD:EE:FF`, the flow terminates by
creating an entry titled `viomi.vacuum.v8` whose data has unique id
`aa:bb:cc:dd:ee:ff`. -/
theorem c7_scenario :
    async_step_user (.responds sampleDevice) noEntries (some sampleInput) =
      .created "aa:bb:cc:dd:ee:ff" "viomi.vacuum.v8"
        { host := "10.0.0.5", token := "aabbccddeeff00112233445566778899",
          model := "viomi.vacuum.v8", name := "viomi.vacuum.v8",
          unique_id := "aa:bb:cc:dd:ee:ff", mac := "aa:bb:cc:dd:ee:ff" } := by
  have h : validate_input (.responds sampleDevice) sampleInput =
      .ok sampleRecord := by decide
  simp [async_step_user, h, noEntries]
  exact ⟨by decide, by decide⟩

/-- C8: for every input whose validation raises a failure other than the
connect-failure and auth-failure conditions, the flow logs the exception
(the `loggedUnexpected` flag) and re-renders the input form annotated with
exactly the error code `unknown`; the step is a total function into form,
create and abort outcomes, so no raw exception propagates to the platform. -/
theorem c8_unexpected_unknown (beh : DeviceBehavior)
    (entries : String → Option ExistingEntry) (data : UserInput)
    (e : FlowError)
    (hv : validate_input beh data = .error e)
    (h1 : e ≠ .cannotConnect) (h2 : e ≠ .invalidAuth)
    (h3 : e ≠ .configEntryAuthFailed) :
    async_step_user beh entries (some data) =
      .showForm (some "unknown") true := by
  cases e with
  | cannotConnect => exact absurd rfl h1
  | invalidAuth => exact absurd rfl h2
  | configEntryAuthFailed => exact absurd rfl h3
  | other => simp [async_step_user, hv]

/-- C8, witness: a schema failure inside `validate_input` (8-character token
on a responsive device) surfaces as the `unknown` error with the exception
logged. -/
theorem c8_witness :
    validate_input (.responds sampleDevice)
        { host := "10.0.0.5", token := "tooshort", name := none } =
      .error .other ∧
    async_step_user (.responds sampleDevice) noEntries
        (some { host := "10.0.0.5", token := "tooshort", name := none }) =
      .showForm (some "unknown") true :=
  ⟨by decide,
   c8_unexpected_unknown (.responds sampleDevice) noEntries
     { host := "10.0.0.5", token := "tooshort", name := none } .other
     (by decide) (by decide) (by decide) (by decide)⟩

/-- C9: for every device behavior and every input, `validate_input` never
raises `CannotConnect`, and the flow handler never renders the form with
error code `cannot_connect` — the handler branch mapping `CannotConnect` to
that code is unreachable. -/
theorem c9_cannot_connect_unreachable :
    (∀ (beh : DeviceBehavior) (data : UserInput),
        validate_input beh data ≠ .error .cannotConnect) ∧
    (∀ (beh : DeviceBehavior) (entries : String → Option ExistingEntry)
        (ui : Option UserInput) (logged : Bool),
        async_step_user beh entries ui ≠
          .showForm (some "cannot_connect") logged) := by
  have hval : ∀ (beh : DeviceBehavior) (data : UserInput),
      validate_input beh data ≠ .error .cannotConnect := by
    intro beh data
    cases beh with
    | responds info =>
      by_cases ht : data.token.length = 32 <;>
        simp [validate_input, async_device_is_connectable, ht]
    | deviceError b =>
      cases b <;> simp [validate_input, async_device_is_connectable]
  refine ⟨hval, ?_⟩
  intro beh entries ui logged
  cases ui with
  | none => simp [async_step_user]
  | some data =>
    rcases hres : validate_input beh data with r | e
    · cases hent : entries r.mac <;> simp [async_step_user, hres, hent]
    · cases e with
      | cannotConnect => exact absurd hres (hval beh data)
      | invalidAuth => simp [async_step_user, hres]
      | configEntryAuthFailed => simp [async_step_user, hres]
      | other => simp [async_step_user, hres]

/-- C10: on the duplicate-entry path, every key of the existing entry's data
other than host, token, name and model keeps its previous value in the data
the entry is updated with. -/
theorem c10_update_preserves_other_keys (beh : DeviceBehavior)
    (data : UserInput) (entries : String → Option ExistingEntry)
    (info : DeviceRecord) (entry : ExistingEntry) (k : String)
    (hv : validate_input beh data = .ok info)
    (he : entries info.mac = some entry)
    (hk1 : k ≠ CONF_HOST) (hk2 : k ≠ CONF_TOKEN) (hk3 : k ≠ CONF_NAME)
    (hk4 : k ≠ CONF_MODEL) :
    async_step_user beh entries (some data) =
      .aborted "already_configured" (merged_entry_data info entry)
        entry.entry_id ∧
    merged_entry_data info entry k = entry.data k := by
  refine ⟨by simp [async_step_user, hv, he], ?_⟩
  simp [merged_entry_data, hk1, hk2, hk3, hk4]

/-- C10, witness: the sample entry's extra `scan_interval` key keeps its value
through the duplicate-path update. -/
theorem c10_witness :
    async_step_user (.responds sampleDevice) sampleEntries (some sampleInput) =
      .aborted "already_configured"
        (merged_entry_data sampleRecord sampleEntry) sampleEntry.entry_id ∧
    merged_entry_data sampleRecord sampleEntry "scan_interval" =
      sampleEntry.data "scan_interval" :=
  c10_update_preserves_other_keys (.responds sampleDevice) sampleInput
    sampleEntries sampleRecord sampleEntry "scan_interval" (by decide) rfl
    (by decide) (by decide) (by decide) (by decide)
